import Mathlib

/-!
Verification of the MedPerplexity backend core (src/Backend/tools.py and
src/Backend/agent_system.py) via a shallow embedding.

Conventions of the embedding:
  * Python strings are Lean `String`; the normalized forms used by the fuzzy
    matcher are `List Char`.
  * Python floats (similarity scores, prices) are modelled as rationals.
  * Network endpoints (the NCBI search and fetch calls) and the LLM are
    modelled as oracle parameters: functions standing for every possible
    behaviour of the external service.
  * Python dicts with fixed key sets are Lean structures; a dict key that is
    present on some code paths only becomes an `Option` field; result dicts
    whose message strings interpolate numbers are modelled by inductive
    message values carrying those numbers.
-/

set_option maxRecDepth 40000

/-! ## Python string primitives used by tools.get_similarity_score -/

/-- Whitespace characters removed by the Python str.strip() method. -/
def pyIsSpace (c : Char) : Bool :=
  c = ' ' || c = '\t' || c = '\n' || c = '\r' || c = '\x0b' || c = '\x0c'

/-- Python str.strip(): drop leading and trailing whitespace. -/
def pyStrip (l : List Char) : List Char :=
  ((l.dropWhile pyIsSpace).reverse.dropWhile pyIsSpace).reverse

/-- The normalization `s.lower().strip()` applied by get_similarity_score
(tools.py lines 149-150) to both of its arguments. -/
def pyNorm (s : String) : List Char :=
  pyStrip (s.data.map Char.toLower)

/-- Length of the longest common prefix of two character lists. -/
def commonPrefixLen : List Char → List Char → Nat
  | a :: as2, b :: bs => if a = b then commonPrefixLen as2 bs + 1 else 0
  | _, _ => 0

/-- difflib.SequenceMatcher.find_longest_match for short strings (no junk,
autojunk inactive below 200 characters): the longest contiguous common block,
ties broken by the smallest start in `a`, then the smallest start in `b`.
Returns (start in a, start in b, length). -/
def bestBlock (a b : List Char) : Nat × Nat × Nat :=
  (List.range a.length).foldl (fun best i =>
    (List.range b.length).foldl (fun best j =>
      let k := commonPrefixLen (a.drop i) (b.drop j)
      if best.2.2 < k then (i, j, k) else best) best) (0, 0, 0)

/-- Total size of difflib.SequenceMatcher.get_matching_blocks: recursively
take the longest matching block and recurse on the pieces to its left and to
its right.  The fuel argument only bounds the recursion depth; `a.length +
b.length` strictly decreases at each level, so the initial fuel used by
`matchesCount` is never exhausted. -/
def matchesCountFuel : Nat → List Char → List Char → Nat
  | 0, _, _ => 0
  | fuel+1, a, b =>
    let bb := bestBlock a b
    if bb.2.2 = 0 then 0
    else matchesCountFuel fuel (a.take bb.1) (b.take bb.2.1) + bb.2.2 +
         matchesCountFuel fuel (a.drop (bb.1 + bb.2.2)) (b.drop (bb.2.1 + bb.2.2))

/-- The `matches` quantity of difflib.SequenceMatcher.ratio(). -/
def matchesCount (a b : List Char) : Nat :=
  matchesCountFuel (a.length + b.length) a b

/-- Python substring containment `q in t` on character lists. -/
def hasSubstring (q : List Char) : List Char → Bool
  | [] => q.isEmpty
  | c :: ts => q.isPrefixOf (c :: ts) || hasSubstring q ts

/-- difflib.SequenceMatcher.ratio() scaled by 100, i.e.
`2 * matches / (len(a) + len(b)) * 100`; following difflib, a pair of empty
sequences has ratio 1.0, hence scaled score 100. -/
def ratio100 (a b : List Char) : ℚ :=
  if a.length + b.length = 0 then 100
  else 200 * (matchesCount a b : ℚ) / ((a.length + b.length : Nat) : ℚ)

/-- tools.get_similarity_score (tools.py lines 147-160): the scaled
sequence-matcher ratio of the normalized strings, clamped up to at least 95
when the normalized query is longer than 4 characters and occurs contiguously
inside the normalized target. -/
def get_similarity_score (query target : String) : ℚ :=
  if 4 < (pyNorm query).length ∧ hasSubstring (pyNorm query) (pyNorm target) = true then
    max (ratio100 (pyNorm query) (pyNorm target)) 95
  else
    ratio100 (pyNorm query) (pyNorm target)

/-! ## Jan Aushadhi catalog search (tools.search_jan_aushadhi) -/

/-- One record of the Jan Aushadhi JSON catalog, with the keys read by
search_jan_aushadhi (tools.py lines 190-237). -/
structure MedRecord where
  generic_name : String
  common_brands : List String
  jan_price : ℚ
  market_avg_price : ℚ
  savings_percentage : String
deriving DecidableEq

/-- The matched_name_source recorded by search_jan_aushadhi: either
the string `Generic Match (name)` or `Brand Match (name)` (tools.py
lines 208 and 211). -/
inductive MatchSource where
  | generic (name : String)
  | brand (name : String)
deriving DecidableEq

/-- The `drug_data` sub-dict of a successful search_jan_aushadhi result
(tools.py lines 230-238).  The price and savings entries are formatted
currency strings in the source; here they carry the underlying numbers. -/
structure DrugData where
  generic_name : String
  brand_name_detected : String
  match_source : MatchSource
  jan_aushadhi_price : ℚ
  market_average_price : ℚ
  savings_amount : ℚ
  savings_percentage : String
deriving DecidableEq

/-- The `message` string of a search_jan_aushadhi result; each constructor is
one of the four message templates of tools.py (lines 183, 226, 239-242, 247)
together with the values interpolated into it. -/
inductive Msg where
  | dbUnavailable
  | noSavings
  | switchAvailable (generic : String) (jan market savings : ℚ)
  | noSubstitute (bestScore : ℚ)
deriving DecidableEq

/-- The dict returned by search_jan_aushadhi: a `found` flag and a `message`
on every path, and a `drug_data` sub-dict on the accepted-match path only. -/
structure SearchResult where
  found : Bool
  message : Msg
  drug_data : Option DrugData
deriving DecidableEq

/-- The inner loop of search_jan_aushadhi over record.common_brands
(tools.py lines 196-203): the best-scoring brand and its score, starting from
score 0 and the empty brand name, updating on strictly greater scores. -/
def bestBrand (query : String) (brands : List String) : ℚ × String :=
  brands.foldl (fun acc b =>
    if acc.1 < get_similarity_score query b then (get_similarity_score query b, b)
    else acc) (0, "")

/-- Steps 1-3 of the per-record scoring of search_jan_aushadhi (tools.py
lines 191-211): the generic-name score is preferred over the best brand score
exactly when it is strictly greater; otherwise the brand score and the brand
name are recorded. -/
def recordScoreSource (query : String) (r : MedRecord) : ℚ × MatchSource :=
  if (bestBrand query r.common_brands).1 < get_similarity_score query r.generic_name then
    (get_similarity_score query r.generic_name, MatchSource.generic r.generic_name)
  else
    ((bestBrand query r.common_brands).1, MatchSource.brand (bestBrand query r.common_brands).2)

/-- The outer loop of search_jan_aushadhi (tools.py lines 185-217): the
running (highest_score, best_match with its matched_name_source), starting
from score 0 and no match, updating on strictly greater record scores. -/
def searchBest (query : String) (db : List MedRecord) : ℚ × Option (MedRecord × MatchSource) :=
  db.foldl (fun st r =>
    if st.1 < (recordScoreSource query r).1 then
      ((recordScoreSource query r).1, some (r, (recordScoreSource query r).2))
    else st) (0, none)

/-- tools.search_jan_aushadhi (tools.py lines 174-248) on an explicitly given
catalog.  An empty catalog gives the database-unavailable result; otherwise
the best-scoring record is accepted when its score reaches the threshold 85,
then demoted to not-found when its savings `market_avg_price - jan_price` are
negative.  The arm in which the threshold is reached while no record was ever
recorded cannot occur (the threshold is positive, and any positive score
records a match); in the source that state would dereference None. -/
def search_jan_aushadhi (query_drug : String) (db : List MedRecord) : SearchResult :=
  if db.isEmpty = true then ⟨false, Msg.dbUnavailable, none⟩
  else
    match searchBest query_drug db with
    | (hs, some (r, src)) =>
      if 85 ≤ hs then
        if r.market_avg_price - r.jan_price < 0 then ⟨false, Msg.noSavings, none⟩
        else
          ⟨true,
           Msg.switchAvailable r.generic_name r.jan_price r.market_avg_price
             (r.market_avg_price - r.jan_price),
           some ⟨r.generic_name, query_drug, src, r.jan_price, r.market_avg_price,
                 r.market_avg_price - r.jan_price, r.savings_percentage⟩⟩
      else ⟨false, Msg.noSubstitute hs, none⟩
    | (hs, none) => ⟨false, Msg.noSubstitute hs, none⟩

/-! ## PubMed retrieval (tools.query_pubmed_realtime) -/

/-- One normalized article dict produced by tools.fetch_article_details
(tools.py lines 110-117). -/
structure Article where
  pmid : String
  title : String
  journal : String
  pub_date : String
  abstract : String
  url : String
deriving DecidableEq

/-- The JSON payload returned by tools.query_pubmed_realtime (tools.py lines
137 and 140): either an error message or a success dict carrying
`evidence_count` and the article list. -/
inductive PubmedResult where
  | error (message : String)
  | success (evidence_count : Nat) (articles : List Article)
deriving DecidableEq

/-- The PMID list retained by query_pubmed_realtime (tools.py lines 130-134):
the strict-mode search result, or the relaxed-mode result when the strict
search came back empty.  `search_pubmed_ids` is the external index, an oracle
mapping the strict_mode flag to the identifier list it returns. -/
def chosenPmids (search_pubmed_ids : Bool → List String) : List String :=
  if (search_pubmed_ids true).isEmpty = true then search_pubmed_ids false
  else search_pubmed_ids true

/-- tools.query_pubmed_realtime (tools.py lines 127-140), with the two
network round-trips as oracles: error when both searches return no
identifier, otherwise a success dict built from whatever the fetch phase
returns for the chosen identifiers (including the empty list). -/
def query_pubmed_realtime (search_pubmed_ids : Bool → List String)
    (fetch_article_details : List String → List Article) : PubmedResult :=
  if (chosenPmids search_pubmed_ids).isEmpty = true then
    PubmedResult.error "No results found."
  else
    PubmedResult.success (fetch_article_details (chosenPmids search_pubmed_ids)).length
      (fetch_article_details (chosenPmids search_pubmed_ids))

/-! ## Research agent fallback loop (agent_system.research_agent) -/

/-- The loop condition of research_agent (agent_system.py line 99): a variant
succeeds when its retrieval status is success and it carries at least one
article. -/
def successWithArticles (r : PubmedResult) : Bool :=
  match r with
  | PubmedResult.success _ articles => !articles.isEmpty
  | PubmedResult.error _ => false

/-- The search_terms fallback list built by research_agent (agent_system.py
lines 87-92). -/
def researchSearchTerms (query conditions_str : String) : List String :=
  [query ++ " " ++ conditions_str ++ " contraindications adverse effects",
   query ++ " " ++ conditions_str ++ " safety",
   query ++ " chronic kidney disease",
   query ++ " clinical guidelines"]

/-- The retrieval loop of research_agent (agent_system.py lines 94-104):
variants are tried in order; the loop stops at the first variant whose result
satisfies `successWithArticles`, and otherwise retains the result of the last
variant tried (the source falls back to an error payload only when the
variant list itself is empty).  Returns the retained evidence together with
the list of variants actually queried.  `pubmed` is the oracle mapping a
search term to the retrieval outcome for it. -/
def research_loop (pubmed : String → PubmedResult) : List String → PubmedResult × List String
  | [] => (PubmedResult.error "No results found.", [])
  | [t] => (pubmed t, [t])
  | t :: r :: rs =>
    if successWithArticles (pubmed t) = true then (pubmed t, [t])
    else
      ((research_loop pubmed (r :: rs)).1, t :: (research_loop pubmed (r :: rs)).2)

/-! ## Safety agent (agent_system.safety_agent) -/

/-- The savings sub-dict of the schema the LLM draft must follow
(agent_system.py lines 176-179). -/
structure DraftSavings where
  found : Bool
  text : String
deriving DecidableEq

/-- A successfully parsed LLM draft verdict, per the required JSON output
format of the safety_agent prompt (agent_system.py lines 168-180). -/
structure Draft where
  status : String
  title : String
  message : String
  evidence : String
  suggestion : Option String
  savings : DraftSavings
deriving DecidableEq

/-- The `savings` entry of the final response dict.  The four constructors
are the four shapes the source can place there: the whole tool result dict
(no-LLM path, agent_system.py line 139), the bare not-found dict (lines 139
and 213), the savings dict of the parsed draft (kept when not repaired), and
the deterministic overwrite built from the tool savings amount and generic
name with found set to True (lines 194-197). -/
inductive PayloadSavings where
  | toolResult (r : SearchResult)
  | notFoundOnly
  | fromDraft (found : Bool) (text : String)
  | deterministicMsg (savings_amount : ℚ) (generic_name : String)
deriving DecidableEq

/-- The final_response dict assembled by safety_agent. -/
structure FinalResponse where
  status : String
  title : String
  message : String
  evidence : String
  suggestion : Option String
  savings : PayloadSavings
  sources : List Article
deriving DecidableEq

/-- The pubmed_articles extraction of safety_agent (agent_system.py lines
121-129): the article list of the research evidence when its status is
success, and the empty list otherwise. -/
def pubmedArticlesOf (research : PubmedResult) : List Article :=
  match research with
  | PubmedResult.success _ articles => articles
  | PubmedResult.error _ => []

/-- The fail-safe response of safety_agent (agent_system.py lines 204-215),
returned whenever the LLM call or the parse of its output raises. -/
def failSafeResponse (errText : String) (articles : List Article) : FinalResponse :=
  ⟨"caution", "Analysis Error",
   "Could not complete automated safety check. Please review guidelines manually.",
   "System Error: " ++ errText, none, PayloadSavings.notFoundOnly, articles⟩

/-- agent_system.safety_agent (agent_system.py lines 114-215).  `useLLM` is
the module-level USE_LLM flag; `draftOut` is the oracle outcome of invoking
the LLM and parsing its cleaned output (`none` when the invocation or the
parse raises, with `errText` the exception text).  When the LLM is not
configured the hardcoded fallback of lines 133-141 is returned.  Otherwise a
parsed draft is post-processed: when the Jan Aushadhi tool found a match and
the draft status is not blocked, the draft savings entry is overwritten with
the deterministic message built from the tool drug_data (lines 192-197); the
source reads drug_data with a raw indexing that would raise (and be caught by
the fail-safe handler) if the key were absent, which the `none` arm mirrors.
The extracted pubmed articles are attached as sources on every path. -/
def safety_agent (useLLM : Bool) (doctor_query : String) (jan : SearchResult)
    (research : PubmedResult) (draftOut : Option Draft) (errText : String) : FinalResponse :=
  if useLLM = true then
    match draftOut with
    | none => failSafeResponse errText (pubmedArticlesOf research)
    | some d =>
      if jan.found = true ∧ d.status ≠ "blocked" then
        match jan.drug_data with
        | some dd =>
          ⟨d.status, d.title, d.message, d.evidence, d.suggestion,
           PayloadSavings.deterministicMsg dd.savings_amount dd.generic_name,
           pubmedArticlesOf research⟩
        | none => failSafeResponse "KeyError" (pubmedArticlesOf research)
      else
        ⟨d.status, d.title, d.message, d.evidence, d.suggestion,
         PayloadSavings.fromDraft d.savings.found d.savings.text,
         pubmedArticlesOf research⟩
  else
    ⟨"approved", "Manual Review Recommended",
     "Query: " ++ doctor_query ++ ". Please review PubMed evidence and patient history manually.",
     "LLM not configured - using fallback mode", none,
     if jan.found = true then PayloadSavings.toolResult jan else PayloadSavings.notFoundOnly,
     pubmedArticlesOf research⟩

/-! ## Concrete fixtures used by witnesses -/

/-- A catalog record with a positive savings margin, used as a concrete
witness input. -/
def medRecordW : MedRecord := ⟨"abcde", [], 10, 50, "80%"⟩

/-- A catalog record whose generic name and single brand alias coincide, so
the generic and brand scores tie exactly. -/
def medRecordTie : MedRecord := ⟨"zzzzz", ["zzzzz"], 1, 2, "50%"⟩

/-- A catalog record whose generic name properly contains a long query, used
as a concrete witness input for the substring bonus. -/
def medRecordSub : MedRecord := ⟨"Atorvastatin Calcium", [], 8, 100, "92%"⟩

/-- A concrete normalized article, used as a concrete oracle output. -/
def articleW : Article := ⟨"1", "T", "J", "2020", "A", "u"⟩

/-- A concrete parsed draft verdict with a non-blocked status. -/
def draftW : Draft := ⟨"approved", "OK", "fine", "PMID 1", none, ⟨false, "ignored"⟩⟩

/-- A mocked literature index for the research-loop witness: zero results for
every variant except the third. -/
def mockPubmed (s : String) : PubmedResult :=
  if s = "t3" then PubmedResult.success 1 [articleW]
  else PubmedResult.error "No results found."

/-! ## Helper lemmas -/

theorem foldl_id {α β : Type} (l : List β) (x : α) : l.foldl (fun b _ => b) x = x := by
  induction l generalizing x with
  | nil => rfl
  | cons _ t ih => exact ih x

theorem bestBlock_nil_left (b : List Char) : bestBlock [] b = (0, 0, 0) := rfl

theorem bestBlock_nil_right (a : List Char) : bestBlock a [] = (0, 0, 0) := by
  unfold bestBlock
  simp only [List.length_nil, List.range_zero, List.foldl_nil]
  exact foldl_id _ _

theorem matchesCount_nil_left (b : List Char) : matchesCount [] b = 0 := by
  unfold matchesCount
  cases h : ([] : List Char).length + b.length with
  | zero => rfl
  | succ n => simp [matchesCountFuel, bestBlock_nil_left]

theorem matchesCount_nil_right (a : List Char) : matchesCount a [] = 0 := by
  unfold matchesCount
  cases h : a.length + ([] : List Char).length with
  | zero => rfl
  | succ n => simp [matchesCountFuel, bestBlock_nil_right]

theorem score_eval_bonus (q t : String) (M L : Nat)
    (hc : 4 < (pyNorm q).length ∧ hasSubstring (pyNorm q) (pyNorm t) = true)
    (hM : matchesCount (pyNorm q) (pyNorm t) = M)
    (hL : (pyNorm q).length + (pyNorm t).length = L) (hL0 : L ≠ 0) :
    get_similarity_score q t = max (200 * (M : ℚ) / (L : ℚ)) 95 := by
  unfold get_similarity_score ratio100
  rw [if_pos hc, hM, hL, if_neg hL0]

theorem score_eval_plain (q t : String) (M L : Nat)
    (hc : ¬ (4 < (pyNorm q).length ∧ hasSubstring (pyNorm q) (pyNorm t) = true))
    (hM : matchesCount (pyNorm q) (pyNorm t) = M)
    (hL : (pyNorm q).length + (pyNorm t).length = L) (hL0 : L ≠ 0) :
    get_similarity_score q t = 200 * (M : ℚ) / (L : ℚ) := by
  unfold get_similarity_score ratio100
  rw [if_neg hc, hM, hL, if_neg hL0]

theorem score_abcde_self : get_similarity_score "abcde" "abcde" = 100 := by
  rw [score_eval_bonus "abcde" "abcde" 5 10 (by decide) (by decide) (by decide) (by decide)]
  have h1 : 200 * ((5 : Nat) : ℚ) / ((10 : Nat) : ℚ) = 100 := by norm_num
  rw [h1]
  exact max_eq_left (by norm_num)

theorem score_zzzzz_self : get_similarity_score "zzzzz" "zzzzz" = 100 := by
  rw [score_eval_bonus "zzzzz" "zzzzz" 5 10 (by decide) (by decide) (by decide) (by decide)]
  have h1 : 200 * ((5 : Nat) : ℚ) / ((10 : Nat) : ℚ) = 100 := by norm_num
  rw [h1]
  exact max_eq_left (by norm_num)

/-! ## C3 -/

/-- C3 (amended): when the normalized (lowercased, stripped) query has length
greater than 4 and occurs contiguously inside the normalized generic name of
a catalog entry, the similarity score against the generic name is at least
95, and so are the per-record score and the best score seen by the search
over the one-entry catalog. -/
theorem substring_bonus_spec (Q : String) (E : MedRecord)
    (hlen : 4 < (pyNorm Q).length)
    (hsub : hasSubstring (pyNorm Q) (pyNorm E.generic_name) = true) :
    95 ≤ get_similarity_score Q E.generic_name ∧
      95 ≤ (recordScoreSource Q E).1 ∧ 95 ≤ (searchBest Q [E]).1 := by
  have hsc : 95 ≤ get_similarity_score Q E.generic_name := by
    unfold get_similarity_score
    rw [if_pos ⟨hlen, hsub⟩]
    exact le_max_right _ _
  have hrec : 95 ≤ (recordScoreSource Q E).1 := by
    unfold recordScoreSource
    by_cases h : (bestBrand Q E.common_brands).1 < get_similarity_score Q E.generic_name
    · rw [if_pos h]; exact hsc
    · rw [if_neg h]; exact le_trans hsc (not_lt.mp h)
  refine ⟨hsc, hrec, ?_⟩
  unfold searchBest
  rw [List.foldl_cons, List.foldl_nil]
  by_cases h0 : ((0 : ℚ), (none : Option (MedRecord × MatchSource))).1 < (recordScoreSource Q E).1
  · rw [if_pos h0]; exact hrec
  · exact absurd (lt_of_lt_of_le (by norm_num) hrec) h0

/-- C3 witness: a concrete long ingredient query contained in a longer
generic name reaches the clamped score. -/
theorem substring_bonus_spec_witness :
    95 ≤ get_similarity_score "atorvastatin" medRecordSub.generic_name ∧
      95 ≤ (recordScoreSource "atorvastatin" medRecordSub).1 ∧
      95 ≤ (searchBest "atorvastatin" [medRecordSub]).1 :=
  substring_bonus_spec "atorvastatin" medRecordSub (by decide) (by decide)

/-- C3 counterexample: the claim as stated quantifies over the raw query; a
raw query of length 5 that is a raw contiguous substring of the generic name
but whose stripped form has length 2 receives no substring bonus and scores
below 95. -/
theorem substring_bonus_raw_fails :
    4 < "bb   ".length ∧ hasSubstring "bb   ".data "abb   c".data = true ∧
      get_similarity_score "bb   " "abb   c" < 95 := by
  refine ⟨by decide, by decide, ?_⟩
  rw [score_eval_plain "bb   " "abb   c" 2 9 (by decide) (by decide) (by decide) (by decide)]
  norm_num

/-! ## C9 -/

/-- C9 (amended): scoring an empty normalized string is total and degrades to
score 0 (below the 85 acceptance threshold) whenever exactly one of the two
normalized strings is empty; when both normalized strings are empty the
sequence-matcher convention makes the score 100, not a low score. -/
theorem empty_degrades (q t : String) :
    (((pyNorm q = [] ∧ pyNorm t ≠ []) ∨ (pyNorm q ≠ [] ∧ pyNorm t = [])) →
      get_similarity_score q t = 0 ∧ (0 : ℚ) < 85) ∧
    ((pyNorm q = [] ∧ pyNorm t = []) → get_similarity_score q t = 100) := by
  constructor
  · intro h
    refine ⟨?_, by norm_num⟩
    unfold get_similarity_score ratio100
    rcases h with ⟨hq, ht⟩ | ⟨hq, ht⟩
    · rw [hq]
      rw [if_neg (by simp)]
      rw [matchesCount_nil_left]
      have hlt : ¬ (([] : List Char).length + (pyNorm t).length = 0) := by
        simpa using ht
      rw [if_neg hlt]
      norm_num
    · rw [ht]
      have hns : hasSubstring (pyNorm q) [] = false := by
        unfold hasSubstring
        simpa using hq
      rw [if_neg (by simp [hns])]
      rw [matchesCount_nil_right]
      have hlt : ¬ ((pyNorm q).length + ([] : List Char).length = 0) := by
        simpa using hq
      rw [if_neg hlt]
      norm_num
  · intro ⟨hq, ht⟩
    unfold get_similarity_score ratio100
    rw [hq, ht]
    rw [if_neg (by simp)]
    rfl

/-- C9 witness: a non-empty query against an empty target scores 0, and two
whitespace-only strings (both normalizing to empty) score 100. -/
theorem empty_degrades_witness :
    get_similarity_score "hello" "" = 0 ∧ get_similarity_score " " "  " = 100 :=
  ⟨((empty_degrades "hello" "").1 (Or.inr ⟨by decide, by decide⟩)).1,
   (empty_degrades " " "  ").2 ⟨by decide, by decide⟩⟩

/-- C9 counterexample: when both the query and the target are empty the score
is 100, which is not below the 85 acceptance threshold, refuting the claim
that every empty input yields a low score. -/
theorem empty_pair_scores_high :
    get_similarity_score "" "" = 100 ∧ ¬ (get_similarity_score "" "" < 85) := by
  have h : get_similarity_score "" "" = 100 := rfl
  refine ⟨h, ?_⟩
  rw [h]
  norm_num

/-! ## Evaluation helpers for the catalog search -/

theorem recordScoreSource_generic_wins (q : String) (r : MedRecord)
    (h : (bestBrand q r.common_brands).1 < get_similarity_score q r.generic_name) :
    recordScoreSource q r =
      (get_similarity_score q r.generic_name, MatchSource.generic r.generic_name) := by
  unfold recordScoreSource
  rw [if_pos h]

theorem recordScoreSource_brand_wins (q : String) (r : MedRecord)
    (h : ¬ (bestBrand q r.common_brands).1 < get_similarity_score q r.generic_name) :
    recordScoreSource q r =
      ((bestBrand q r.common_brands).1, MatchSource.brand (bestBrand q r.common_brands).2) := by
  unfold recordScoreSource
  rw [if_neg h]

theorem searchBest_single (q : String) (r : MedRecord)
    (h : (0 : ℚ) < (recordScoreSource q r).1) :
    searchBest q [r] = ((recordScoreSource q r).1, some (r, (recordScoreSource q r).2)) := by
  unfold searchBest
  rw [List.foldl_cons, List.foldl_nil]
  rw [if_pos h]

theorem search_single_accept (q : String) (r : MedRecord)
    (h0 : (0 : ℚ) < (recordScoreSource q r).1) (hth : 85 ≤ (recordScoreSource q r).1)
    (hnn : ¬ r.market_avg_price - r.jan_price < 0) :
    search_jan_aushadhi q [r] =
      ⟨true,
       Msg.switchAvailable r.generic_name r.jan_price r.market_avg_price
         (r.market_avg_price - r.jan_price),
       some ⟨r.generic_name, q, (recordScoreSource q r).2, r.jan_price, r.market_avg_price,
             r.market_avg_price - r.jan_price, r.savings_percentage⟩⟩ := by
  unfold search_jan_aushadhi
  rw [searchBest_single q r h0]
  rw [if_neg (by simp)]
  dsimp only
  rw [if_pos hth, if_neg hnn]

theorem recordScoreSource_W :
    recordScoreSource "abcde" medRecordW = (100, MatchSource.generic "abcde") := by
  have hg : medRecordW.generic_name = "abcde" := rfl
  have hb : bestBrand "abcde" medRecordW.common_brands = (0, "") := rfl
  rw [recordScoreSource_generic_wins "abcde" medRecordW
    (by rw [hb, hg, score_abcde_self]; norm_num)]
  rw [hg, score_abcde_self]

theorem search_W_eval :
    search_jan_aushadhi "abcde" [medRecordW] =
      ⟨true, Msg.switchAvailable "abcde" 10 50 40,
       some ⟨"abcde", "abcde", MatchSource.generic "abcde", 10, 50, 40, "80%"⟩⟩ := by
  rw [search_single_accept "abcde" medRecordW
    (by rw [recordScoreSource_W]; norm_num)
    (by rw [recordScoreSource_W]; norm_num)
    (by show ¬ (50 : ℚ) - 10 < 0; norm_num)]
  rw [recordScoreSource_W]
  norm_num [medRecordW]

/-! ## C4 -/

/-- C4 (amended): per catalog entry, the generic-name score is preferred over
the best brand-alias score exactly when it is strictly greater; on an exact
tie the brand wins, i.e. the recorded match provenance is the best brand
alias, not the generic name. -/
theorem tie_goes_to_brand (q : String) (r : MedRecord) :
    ((recordScoreSource q r).2 = MatchSource.generic r.generic_name ↔
      (bestBrand q r.common_brands).1 < get_similarity_score q r.generic_name) ∧
    (get_similarity_score q r.generic_name = (bestBrand q r.common_brands).1 →
      (recordScoreSource q r).2 = MatchSource.brand (bestBrand q r.common_brands).2) := by
  by_cases h : (bestBrand q r.common_brands).1 < get_similarity_score q r.generic_name
  · rw [recordScoreSource_generic_wins q r h]
    refine ⟨⟨fun _ => h, fun _ => rfl⟩, fun he => absurd h ?_⟩
    rw [he]
    exact lt_irrefl _
  · rw [recordScoreSource_brand_wins q r h]
    exact ⟨⟨fun hg => absurd hg (by simp), fun hlt => absurd hlt h⟩, fun _ => rfl⟩

theorem bestBrand_tie_eval : bestBrand "zzzzz" ["zzzzz"] = (100, "zzzzz") := by
  unfold bestBrand
  rw [List.foldl_cons, List.foldl_nil]
  rw [score_zzzzz_self]
  rw [if_pos (by norm_num : ((0 : ℚ), "").1 < 100)]

/-- C4 witness: on a concrete catalog entry whose generic name and only brand
alias are the same string, the two scores tie exactly and the recorded
provenance is the brand alias. -/
theorem tie_goes_to_brand_witness :
    (recordScoreSource "zzzzz" medRecordTie).2 =
      MatchSource.brand (bestBrand "zzzzz" medRecordTie.common_brands).2 :=
  (tie_goes_to_brand "zzzzz" medRecordTie).2
    (by
      have hg : medRecordTie.generic_name = "zzzzz" := rfl
      have hb : medRecordTie.common_brands = ["zzzzz"] := rfl
      rw [hg, hb, bestBrand_tie_eval, score_zzzzz_self])

/-- C4 counterexample: with generic name and brand alias both scoring 100,
search_jan_aushadhi records the brand alias as the match provenance, not the
generic name, refuting the claim that the generic wins exact ties. -/
theorem tie_recorded_as_brand_not_generic :
    get_similarity_score "zzzzz" medRecordTie.generic_name =
      (bestBrand "zzzzz" medRecordTie.common_brands).1 ∧
    (search_jan_aushadhi "zzzzz" [medRecordTie]).drug_data =
      some ⟨"zzzzz", "zzzzz", MatchSource.brand "zzzzz", 1, 2, 1, "50%"⟩ ∧
    MatchSource.brand "zzzzz" ≠ MatchSource.generic "zzzzz" := by
  have hg : medRecordTie.generic_name = "zzzzz" := rfl
  have hb : medRecordTie.common_brands = ["zzzzz"] := rfl
  have hrec : recordScoreSource "zzzzz" medRecordTie = (100, MatchSource.brand "zzzzz") := by
    rw [recordScoreSource_brand_wins "zzzzz" medRecordTie
      (by rw [hb, bestBrand_tie_eval, hg, score_zzzzz_self]; norm_num)]
    rw [hb, bestBrand_tie_eval]
  refine ⟨by rw [hg, hb, bestBrand_tie_eval, score_zzzzz_self], ?_, by simp⟩
  rw [search_single_accept "zzzzz" medRecordTie
    (by rw [hrec]; norm_num)
    (by rw [hrec]; norm_num)
    (by show ¬ (2 : ℚ) - 1 < 0; norm_num)]
  rw [hrec]
  norm_num [medRecordTie]

/-! ## C2 and C10 -/

theorem search_found_spec (q : String) (db : List MedRecord)
    (h : (search_jan_aushadhi q db).found = true) :
    ∃ dd, (search_jan_aushadhi q db).drug_data = some dd ∧
      0 ≤ dd.savings_amount ∧
      dd.savings_amount = dd.market_average_price - dd.jan_aushadhi_price := by
  unfold search_jan_aushadhi at h ⊢
  by_cases hdb : db.isEmpty = true
  · rw [if_pos hdb] at h
    simp at h
  · rw [if_neg hdb] at h ⊢
    rcases hsb : searchBest q db with ⟨hs, osrc⟩
    rw [hsb] at h
    rcases osrc with _ | ⟨r, src⟩
    · simp at h
    · dsimp only at h ⊢
      by_cases hth : 85 ≤ hs
      · rw [if_pos hth] at h ⊢
        by_cases hneg : r.market_avg_price - r.jan_price < 0
        · rw [if_pos hneg] at h
          simp at h
        · rw [if_neg hneg] at h ⊢
          exact ⟨_, rfl, not_lt.mp hneg, rfl⟩
      · rw [if_neg hth] at h
        simp at h

/-- C2: whenever search_jan_aushadhi reports found = true, the returned
drug_data is present and its computed savings amount, which equals the
market average price minus the Jan Aushadhi price of the matched entry, is
non-negative; a negative-savings match is demoted to found = false before
this point, so it can never be returned as a match. -/
theorem search_found_implies_nonneg_savings (q : String) (db : List MedRecord)
    (h : (search_jan_aushadhi q db).found = true) :
    ∃ dd, (search_jan_aushadhi q db).drug_data = some dd ∧
      0 ≤ dd.savings_amount ∧
      dd.savings_amount = dd.market_average_price - dd.jan_aushadhi_price :=
  search_found_spec q db h

/-- C2 witness: a concrete accepted match with positive savings. -/
theorem search_found_implies_nonneg_savings_witness :
    ∃ dd, (search_jan_aushadhi "abcde" [medRecordW]).drug_data = some dd ∧
      0 ≤ dd.savings_amount ∧
      dd.savings_amount = dd.market_average_price - dd.jan_aushadhi_price :=
  search_found_implies_nonneg_savings "abcde" [medRecordW] (by rw [search_W_eval])

/-- C10: every search_jan_aushadhi result carries the found flag and a
message by construction, and carries the drug_data sub-object exactly when
found is true, uniformly over the empty-catalog, below-threshold,
negative-savings and accepted-match paths. -/
theorem search_result_well_formed (q : String) (db : List MedRecord) :
    (search_jan_aushadhi q db).drug_data.isSome = (search_jan_aushadhi q db).found := by
  unfold search_jan_aushadhi
  by_cases hdb : db.isEmpty = true
  · rw [if_pos hdb]
    rfl
  · rw [if_neg hdb]
    rcases searchBest q db with ⟨hs, _ | ⟨r, src⟩⟩
    · rfl
    · dsimp only
      by_cases hth : 85 ≤ hs
      · rw [if_pos hth]
        by_cases hneg : r.market_avg_price - r.jan_price < 0
        · rw [if_pos hneg]
          rfl
        · rw [if_neg hneg]
          rfl
      · rw [if_neg hth]
        rfl

/-! ## C7 and C8 -/

/-- C7: when the LLM output fails to parse (or its invocation raises), the
safety agent returns the fail-safe payload with status caution and the
extracted PubMed sources still attached; the model is a total function, so
no exception escapes to the caller. -/
theorem safety_parse_failure_fallback (q : String) (jan : SearchResult)
    (research : PubmedResult) (e : String) :
    (safety_agent true q jan research none e).status = "caution" ∧
    (safety_agent true q jan research none e).sources = pubmedArticlesOf research :=
  ⟨rfl, rfl⟩

/-- C8 (amended): when the LLM is not configured, the safety agent
deterministically returns the hardcoded fallback whose status is approved
(not caution) with title and message instructing manual review, still
carrying the full Jan Aushadhi tool result when it found a match and the
extracted PubMed sources. -/
theorem safety_no_llm_fallback (q : String) (jan : SearchResult)
    (research : PubmedResult) (draftOut : Option Draft) (e : String) :
    (safety_agent false q jan research draftOut e).status = "approved" ∧
    (safety_agent false q jan research draftOut e).title = "Manual Review Recommended" ∧
    (safety_agent false q jan research draftOut e).savings =
      (if jan.found = true then PayloadSavings.toolResult jan else PayloadSavings.notFoundOnly) ∧
    (safety_agent false q jan research draftOut e).sources = pubmedArticlesOf research :=
  ⟨rfl, rfl, rfl, rfl⟩

/-- C8 counterexample: the no-LLM fallback has status approved, not the
caution status the claim requires. -/
theorem safety_no_llm_status_not_caution :
    (safety_agent false "Diclofenac 50mg" ⟨false, Msg.dbUnavailable, none⟩
        (PubmedResult.error "m") none "").status = "approved" ∧
    "approved" ≠ "caution" :=
  ⟨rfl, by decide⟩

/-! ## C1 -/

/-- C1 (amended): a success result means the identifier search (strict mode,
else relaxed mode) returned at least one PMID, the articles are exactly what
the fetch phase returned for those PMIDs, and evidence_count is their number;
the fetch phase may still return zero articles, so success alone does not
guarantee evidence_count at least 1. -/
theorem pubmed_success_spec (search : Bool → List String)
    (fetch : List String → List Article) (n : Nat) (arts : List Article)
    (h : query_pubmed_realtime search fetch = PubmedResult.success n arts) :
    chosenPmids search ≠ [] ∧ arts = fetch (chosenPmids search) ∧ n = arts.length := by
  unfold query_pubmed_realtime at h
  by_cases hp : (chosenPmids search).isEmpty = true
  · rw [if_pos hp] at h
    exact absurd h (by simp)
  · rw [if_neg hp] at h
    rw [PubmedResult.success.injEq] at h
    refine ⟨?_, h.2.symm, ?_⟩
    · intro hnil
      exact hp (by rw [hnil]; rfl)
    · rw [← h.2, ← h.1]

/-- C1 witness: an index returning one PMID whose fetch yields one parsed
article satisfies the amended success specification. -/
theorem pubmed_success_spec_witness :
    chosenPmids (fun _ => ["1"]) ≠ [] ∧
    [articleW] = (fun _ => [articleW]) (chosenPmids (fun _ => ["1"])) ∧
    1 = [articleW].length :=
  pubmed_success_spec (fun _ => ["1"]) (fun _ => [articleW]) 1 [articleW] rfl

/-- C1 counterexample: when the identifier search returns a PMID but the
fetch phase returns no parseable article (for example on a fetch error, which
fetch_article_details swallows into an empty list), query_pubmed_realtime
still returns status success with evidence_count 0 and an empty articles
list, refuting success implies count at least 1. -/
theorem pubmed_success_with_zero_articles :
    query_pubmed_realtime (fun _ => ["1"]) (fun _ => []) = PubmedResult.success 0 [] ∧
    ¬ (1 ≤ (0 : Nat)) :=
  ⟨rfl, by decide⟩

/-! ## C6 -/

/-- C6: when the Substitute Matcher result has found = true and the parsed
draft verdict status is not blocked, the assembled response carries the
deterministic savings overwrite, built from the tool drug_data savings amount
and generic name (with found set to True in the source), regardless of the
savings the draft itself claimed. -/
theorem safety_overwrites_draft_savings (q dq : String) (db : List MedRecord)
    (research : PubmedResult) (d : Draft) (e : String)
    (hf : (search_jan_aushadhi q db).found = true) (hs : d.status ≠ "blocked") :
    ∃ dd, (search_jan_aushadhi q db).drug_data = some dd ∧
      (safety_agent true dq (search_jan_aushadhi q db) research (some d) e).savings =
        PayloadSavings.deterministicMsg dd.savings_amount dd.generic_name := by
  obtain ⟨dd, hdd, -, -⟩ := search_found_spec q db hf
  refine ⟨dd, hdd, ?_⟩
  unfold safety_agent
  rw [if_pos rfl]
  dsimp only
  rw [if_pos ⟨hf, hs⟩]
  rw [hdd]

/-- C6 witness: a concrete found match and an approved draft; the response
savings entry is the deterministic message, not the draft savings. -/
theorem safety_overwrites_draft_savings_witness :
    ∃ dd, (search_jan_aushadhi "abcde" [medRecordW]).drug_data = some dd ∧
      (safety_agent true "order abcde" (search_jan_aushadhi "abcde" [medRecordW])
          (PubmedResult.error "m") (some draftW) "").savings =
        PayloadSavings.deterministicMsg dd.savings_amount dd.generic_name :=
  safety_overwrites_draft_savings "abcde" "order abcde" [medRecordW]
    (PubmedResult.error "m") draftW "" (by rw [search_W_eval]) (by decide)

/-! ## C5 -/

/-- C5: the research loop tries the ranked variants in order and stops at the
first variant whose retrieval is a success carrying at least one article: if
every earlier variant fails that test and variant t passes it, the retained
evidence is exactly the oracle output for t and only the variants up to and
including t are ever queried. -/
theorem research_first_success (pubmed : String → PubmedResult)
    (pre post : List String) (t : String)
    (hpre : ∀ s ∈ pre, successWithArticles (pubmed s) = false)
    (ht : successWithArticles (pubmed t) = true) :
    research_loop pubmed (pre ++ t :: post) = (pubmed t, pre ++ [t]) := by
  induction pre with
  | nil =>
    cases post with
    | nil => rfl
    | cons r rs =>
      show research_loop pubmed (t :: r :: rs) = (pubmed t, [t])
      unfold research_loop
      rw [if_pos ht]
  | cons p ps ih =>
    have hp : successWithArticles (pubmed p) = false := hpre p (by simp)
    have hps := ih (fun s hsm => hpre s (List.mem_cons_of_mem p hsm))
    rcases hcons : ps ++ t :: post with _ | ⟨r, rs⟩
    · exact absurd hcons (by simp)
    · show research_loop pubmed (p :: (ps ++ t :: post)) = (pubmed t, (p :: ps) ++ [t])
      rw [hcons]
      unfold research_loop
      rw [if_neg (by rw [hp]; exact Bool.false_ne_true)]
      rw [← hcons, hps]
      rfl

/-- C5 witness: against a mocked index returning zero results for the first
two variants and one article for the third, the retained evidence is the
output for the third variant and the fourth variant is never queried. -/
theorem research_first_success_witness :
    research_loop mockPubmed (["t1", "t2"] ++ "t3" :: ["t4"]) =
      (mockPubmed "t3", ["t1", "t2"] ++ ["t3"]) :=
  research_first_success mockPubmed ["t1", "t2"] ["t4"] "t3" (by decide) (by decide)
